import Mathlib

/-!
# The wormhole scenario of `wormhole.cc`

`main` of `src/wormhole.cc` is a script of calls into the ns-3 library: it
creates 18 nodes, installs ad-hoc wifi devices and AODV routing, assigns
addresses, places the nodes, optionally configures the wormhole attack,
installs one UDP echo server and one client, attaches a flow monitor, runs the
simulation and prints a per-flow report.

The embedding below follows the script statement by statement.  The state the
script builds through the ns-3 helpers is an explicit record (`Net`); the
helpers the script calls are modelled by what they do to that record.  The
simulation engine itself is outside the repository and enters as a parameter
(`FlowMonitorRun`).
-/

namespace Wormhole

/-! ## ns-3 values -/

/-- An IPv4 address, as its 32-bit value. -/
abbrev Ipv4Address := Nat

/-- The address written `a.b.c.d`. -/
def ipv4 (a b c d : Nat) : Ipv4Address := ((a * 256 + b) * 256 + c) * 256 + d

/-- `Ipv4Address::CombineMask`: the address AND the mask. -/
def CombineMask (a : Ipv4Address) (mask : Nat) : Ipv4Address := Nat.land a mask

/-- An address lies in the subnet `network/mask` when its masked value is the subnet base. -/
def inSubnet (a : Ipv4Address) (network mask : Nat) : Bool := CombineMask a mask == network

/-- Simulation time, an integer number of nanoseconds (the ns-3 default resolution). -/
structure Time where
  ns : Int
deriving DecidableEq, Repr

/-- `Seconds (s)` for a whole number of seconds. -/
def Seconds (s : Int) : Time := ⟨s * 1000000000⟩

/-- `Time::GetSeconds`, exact. -/
def Time.GetSeconds (t : Time) : ℚ := (t.ns : ℚ) / 1000000000

/-- A `double` as far as the report needs it: an exact rational, an infinity or
not-a-number.  Rounding and the sign of zero are not represented. -/
inductive Double where
  | finite (q : ℚ)
  | infinite (negative : Bool)
  | nan
deriving DecidableEq, Repr

/-- IEEE-754 division on `Double`: a nonzero number over zero is an infinity,
zero over zero is not-a-number. -/
def Double.div : Double → Double → Double
  | .nan, _ => .nan
  | _, .nan => .nan
  | .infinite _, .infinite _ => .nan
  | .infinite s, .finite y => .infinite (s != decide (y < 0))
  | .finite _, .infinite _ => .finite 0
  | .finite x, .finite y =>
      if y = 0 then (if x = 0 then .nan else .infinite (decide (x < 0))) else .finite (x / y)

/-- A position `Vector (x, y, z)`; the scenario only uses whole coordinates. -/
structure Vector where
  x : Int
  y : Int
  z : Int
deriving DecidableEq, Repr

/-- A `NodeContainer`: the indices of its nodes, in order. -/
abbrev NodeContainer := List Nat

/-- A network device: the node it sits on and its index among that node's devices. -/
structure NetDevice where
  node : Nat
  ifIndex : Nat
deriving DecidableEq, Repr

abbrev NetDeviceContainer := List NetDevice

/-- The value of a routing attribute. -/
inductive AttributeValue where
  | BooleanValue (b : Bool)
  | Ipv4AddressValue (a : Ipv4Address)
deriving DecidableEq, Repr

/-- An `AodvHelper`: the attributes set on it, in order.  A fresh helper has none. -/
structure AodvHelper where
  attributes : List (String × AttributeValue) := []
deriving DecidableEq, Repr

/-- `AodvHelper::Set`. -/
def AodvHelper.Set (h : AodvHelper) (name : String) (v : AttributeValue) : AodvHelper :=
  ⟨h.attributes ++ [(name, v)]⟩

/-- A UDP echo server application. -/
structure UdpEchoServer where
  node : Nat
  port : Nat
  start : Time
  stop : Time
deriving DecidableEq, Repr

/-- A UDP echo client application. -/
structure UdpEchoClient where
  node : Nat
  remoteAddress : Ipv4Address
  remotePort : Nat
  MaxPackets : Nat
  Interval : Time
  PacketSize : Nat
  start : Time
  stop : Time
deriving DecidableEq, Repr

/-- What the script has asked of the library so far. -/
structure Net where
  /-- number of nodes created -/
  numNodes : Nat := 0
  /-- every device installed, in order of creation -/
  devices : List NetDevice := []
  /-- every `InternetStackHelper::Install`: the node and the routing helper in force -/
  internetStacks : List (Nat × AodvHelper) := []
  /-- every address added to a device's interface, in order -/
  ifaddrs : List (NetDevice × Ipv4Address) := []
  /-- the position given to each node -/
  positions : List (Nat × Vector) := []
deriving DecidableEq, Repr

/-! ## The helpers the script calls -/

/-- `NodeContainer::Create (n)` on an empty container: nodes `0 .. n-1`. -/
def NodeContainer.Create (n : Nat) : NodeContainer := List.range n

/-- `NodeContainer::Get (i)`. -/
def NodeContainer.Get (c : NodeContainer) (i : Nat) : Option Nat := c.get? i

/-- The devices `WifiHelper::Install` creates on the nodes of a container: one new
device per node, numbered after the devices that node already has. -/
def newWifiDevices (existing : List NetDevice) : NodeContainer → List NetDevice
  | [] => []
  | n :: c =>
      let d : NetDevice := ⟨n, (existing.filter (fun e => e.node == n)).length⟩
      d :: newWifiDevices (existing ++ [d]) c

/-- `WifiHelper::Install (phy, mac, c)`. -/
def WifiHelper.Install (net : Net) (c : NodeContainer) : Net × NetDeviceContainer :=
  let ds := newWifiDevices net.devices c
  ({ net with devices := net.devices ++ ds }, ds)

/-- `InternetStackHelper::Install (c)` with routing helper `routing` in force. -/
def InternetStackHelper.Install (net : Net) (routing : AodvHelper) (c : NodeContainer) : Net :=
  { net with internetStacks := net.internetStacks ++ c.map (fun n => (n, routing)) }

/-- An `Ipv4AddressHelper`: subnet base, mask and the next host number. -/
structure Ipv4AddressHelper where
  network : Nat
  mask : Nat
  address : Nat
deriving DecidableEq, Repr

/-- `Ipv4AddressHelper::SetBase (network, mask)`: host numbers restart at 1. -/
def Ipv4AddressHelper.SetBase (network mask : Nat) : Ipv4AddressHelper := ⟨network, mask, 1⟩

/-- The largest host number of the subnet: all host bits set is the broadcast address. -/
def Ipv4AddressHelper.maxHost (h : Ipv4AddressHelper) : Nat := (4294967295 - h.mask) - 1

/-- An `Ipv4InterfaceContainer`: the interfaces (devices) it refers to, in order. -/
abbrev Ipv4InterfaceContainer := List NetDevice

/-- `Ipv4AddressHelper::Assign (devices)`: each device in turn gets the next
address of the subnet, added to its interface.  The library aborts when the
subnet has no host number left. -/
def Ipv4AddressHelper.Assign (h : Ipv4AddressHelper) (net : Net) (devs : NetDeviceContainer) :
    Option (Ipv4AddressHelper × Net × Ipv4InterfaceContainer) :=
  if h.address + devs.length ≤ h.maxHost + 1 then
    some ({ h with address := h.address + devs.length },
          { net with ifaddrs := net.ifaddrs ++
              devs.enum.map (fun kd => (kd.2, Nat.lor h.network (h.address + kd.1))) },
          devs)
  else none

/-- `Ipv4InterfaceContainer::GetAddress (i)`: the first address of the `i`-th interface. -/
def Ipv4InterfaceContainer.GetAddress (net : Net) (c : Ipv4InterfaceContainer) (i : Nat) :
    Option Ipv4Address :=
  (c.get? i).bind (fun d => (net.ifaddrs.find? (fun e => e.1 == d)).map (fun e => e.2))

/-- `MobilityHelper::Install (c)` with a list position allocator: the nodes take
the listed positions in order. -/
def MobilityHelper.Install (net : Net) (positionAlloc : List Vector) (c : NodeContainer) : Net :=
  { net with positions := net.positions ++ c.zip positionAlloc }

/-! ## The scenario `main` sets up (lines 33-135) -/

/-- The four node containers the wormhole block declares (lines 94-97). -/
def wormholeNodes1 : NodeContainer := [0, 5]
def wormholeNodes2 : NodeContainer := [2, 8]
def wormholeNodes3 : NodeContainer := [7, 10]
def wormholeNodes4 : NodeContainer := [11, 16]

/-- The positions the loop of lines 81-83 adds to the allocator. -/
def positionAlloc (n : Nat) : List Vector :=
  (List.range n).map (fun i => ⟨(i : Int) * 100, 0, 0⟩)

/-- The malicious routing helper of lines 107-110. -/
def malicious_aodv : AodvHelper :=
  (((AodvHelper.mk []).Set "EnableWrmAttack" (.BooleanValue true)).Set
      "FirstWifiEndOfWormTunnel" (.Ipv4AddressValue (ipv4 10 0 2 1))).Set
      "SecondWifiEndOfWormTunnel" (.Ipv4AddressValue (ipv4 10 0 2 2))

/-- The scenario handed to the simulator. -/
structure Scenario where
  phyMode : String
  TxPowerStart : Int
  TxPowerEnd : Int
  net : Net
  /-- devices created inside the wormhole block -/
  mal_devices : NetDeviceContainer
  /-- interfaces of `mal_ipcont` -/
  mal_ipcont : Ipv4InterfaceContainer
  serverApps : List UdpEchoServer
  clientApps : List UdpEchoClient
  stopTime : Time
deriving DecidableEq, Repr

/-- The wormhole block, lines 92-115.  The container `wormholeNodes` that lines 98
and 114 install on is declared nowhere in the source, so it is a parameter; the
four containers the block does declare are not used by any later statement. -/
def wormholeBlock (wormholeNodes : NodeContainer) (net : Net) (devices : NetDeviceContainer) :
    Option (Net × NetDeviceContainer × Ipv4InterfaceContainer) := do
  let _w1 := wormholeNodes1
  let _w2 := wormholeNodes2
  let _w3 := wormholeNodes3
  let _w4 := wormholeNodes4
  let (net, mal_devices) := WifiHelper.Install net wormholeNodes
  let address := Ipv4AddressHelper.SetBase (ipv4 10 1 2 0) (ipv4 255 255 255 0)
  -- the block's own `interfaces`, which shadows the outer one
  let (address, net, _interfaces) ← address.Assign net devices
  let (_, net, mal_ipcont) ← address.Assign net mal_devices
  let net := InternetStackHelper.Install net malicious_aodv wormholeNodes
  pure (net, mal_devices, mal_ipcont)

/-- Lines 33-135 of `main`: the scenario set up for the given command-line values.
The wifi standard, rate manager, channel and propagation models and the packet
capture are handed to the library unchanged and are not represented; the stop
time of line 143 is recorded with the scenario. -/
def mainSetup (enableWormhole : Bool) (phyMode : String) (wormholeNodes : NodeContainer) :
    Option Scenario := do
  let nodes := NodeContainer.Create 18
  let net : Net := { numNodes := 18 }
  let (net, devices) := WifiHelper.Install net nodes
  let aodv : AodvHelper := {}
  let net := InternetStackHelper.Install net aodv nodes
  let address := Ipv4AddressHelper.SetBase (ipv4 10 1 1 0) (ipv4 255 255 255 0)
  let (_, net, interfaces) ← address.Assign net devices
  let net := MobilityHelper.Install net (positionAlloc nodes.length) nodes
  let (net, mal_devices, mal_ipcont) ←
    if enableWormhole then wormholeBlock wormholeNodes net devices
    else pure (net, [], [])
  let echoPort := 9
  let serverNode ← nodes.Get 4
  let serverApps : List UdpEchoServer := [⟨serverNode, echoPort, Seconds 1, Seconds 100⟩]
  let remote ← Ipv4InterfaceContainer.GetAddress net interfaces 4
  let clientNode ← nodes.Get 1
  let clientApps : List UdpEchoClient :=
    [⟨clientNode, remote, echoPort, 1, Seconds 1, 1024, Seconds 2, Seconds 100⟩]
  pure { phyMode := phyMode, TxPowerStart := 30, TxPowerEnd := 30, net := net,
         mal_devices := mal_devices, mal_ipcont := mal_ipcont,
         serverApps := serverApps, clientApps := clientApps, stopTime := Seconds 100 }

/-! ## Flow monitor and report (lines 139-165) -/

abbrev FlowId := Nat

/-- The fields of `FlowMonitor::FlowStats` the flow accounting keeps per flow;
`main` reads the two times and the two byte counts. -/
structure FlowStats where
  timeFirstTxPacket : Time
  timeLastRxPacket : Time
  txBytes : Nat
  rxBytes : Nat
  txPackets : Nat
  rxPackets : Nat
deriving DecidableEq, Repr

/-- The flow statistics map, `std::map<FlowId, FlowStats>`, in key order. -/
abbrev FlowStatsMap := List (FlowId × FlowStats)

/-- The two addresses of `Ipv4FlowClassifier::FiveTuple` that the report prints. -/
structure FiveTuple where
  sourceAddress : Ipv4Address
  destinationAddress : Ipv4Address
deriving DecidableEq, Repr

/-- The simulation engine, which is not part of the repository: the statistics
the flow monitor holds once `Simulator::Run` has returned, and the classifier's
`FindFlow`. -/
structure FlowMonitorRun where
  Run : Scenario → FlowStatsMap
  FindFlow : FlowId → FiveTuple

/-- The throughput expression of line 164:
`rxBytes * 8.0 / (timeLastRxPacket.GetSeconds () - timeFirstTxPacket.GetSeconds ()) / 1024 / 1024`.
The arithmetic is exact: the rounding of the conversions and of the
divisions and the sign of a zero result are not represented, so a value
`finite q` stands for the double nearest to `q`. -/
def throughput (s : FlowStats) : Double :=
  (((Double.finite ((s.rxBytes : ℚ) * 8)).div
      (.finite (s.timeLastRxPacket.GetSeconds - s.timeFirstTxPacket.GetSeconds))).div
      (.finite 1024)).div (.finite 1024)

/-- One record of the printed report. -/
structure FlowReport where
  flowId : FlowId
  sourceAddress : Ipv4Address
  destinationAddress : Ipv4Address
  txBytes : Nat
  rxBytes : Nat
  /-- the number printed before the label `Mbps` -/
  throughputMbps : Double
deriving DecidableEq, Repr

/-- The loop of lines 158-165. -/
def printFlowStats (FindFlow : FlowId → FiveTuple) (stats : FlowStatsMap) : List FlowReport :=
  stats.map (fun i =>
    let t := FindFlow i.1
    { flowId := i.1, sourceAddress := t.sourceAddress, destinationAddress := t.destinationAddress,
      txBytes := i.2.txBytes, rxBytes := i.2.rxBytes, throughputMbps := throughput i.2 })

/-- The calls of lines 139-165 that touch the monitor or the simulator. -/
inductive Step where
  | InstallAll
  | Stop (t : Time)
  | SerializeToXmlFile
  | Run
  | Destroy
  | CheckForLostPackets
  | GetFlowStats
  | Print (flow : FlowId)
deriving DecidableEq, Repr

/-- What a run of the program leaves behind. -/
structure Output where
  scenario : Scenario
  /-- the statistics written to `WormholeFlowMonitor.xml`, when the file is written -/
  xmlFile : Option FlowStatsMap
  /-- the report printed on standard output -/
  report : List FlowReport
  /-- the monitor and simulator calls, in program order -/
  steps : List Step

/-- The program.  A freshly installed flow monitor holds no flow; `Simulator::Run`
fills it; `CheckForLostPackets` only moves packets to the lost counter, which
is not among the modelled fields. -/
def main (enableFlowMonitor enableWormhole : Bool) (phyMode : String)
    (wormholeNodes : NodeContainer) (sim : FlowMonitorRun) : Option Output := do
  let scenario ← mainSetup enableWormhole phyMode wormholeNodes
  -- Flow Monitor
  let monitor : FlowStatsMap := []
  let steps := [Step.InstallAll, Step.Stop scenario.stopTime]
  let (xmlFile, steps) :=
    if enableFlowMonitor then (some monitor, steps ++ [Step.SerializeToXmlFile])
    else (none, steps)
  let monitor := sim.Run scenario
  let steps := steps ++ [Step.Run, Step.Destroy]
  -- Print per flow statistics
  let steps := steps ++ [Step.CheckForLostPackets, Step.GetFlowStats]
  let stats := monitor
  let report := printFlowStats sim.FindFlow stats
  let steps := steps ++ stats.map (fun i => Step.Print i.1)
  pure { scenario := scenario, xmlFile := xmlFile, report := report, steps := steps }

/-! ## The link graph of the placed nodes -/

/-- The radio range the transmit power is chosen for (comment of line 52). -/
def radioRange : Int := 250

/-- Squared Euclidean distance between two positions. -/
def distanceSq (p q : Vector) : Int := (p.x - q.x) ^ 2 + (p.y - q.y) ^ 2 + (p.z - q.z) ^ 2

/-- The position a scenario gives to a node. -/
def Scenario.position (s : Scenario) (i : Nat) : Option Vector :=
  (s.net.positions.find? (fun e => e.1 == i)).map (fun e => e.2)

/-- Two distinct placed nodes can communicate when their distance is within the radio range. -/
def canCommunicate (s : Scenario) (a b : Nat) : Bool :=
  match s.position a, s.position b with
  | some p, some q => a != b && decide (distanceSq p q ≤ radioRange ^ 2)
  | _, _ => false

/-- The declared wormhole pairs: the two nodes of each declared container. -/
def wormholePairs : List (Nat × Nat) :=
  [wormholeNodes1, wormholeNodes2, wormholeNodes3, wormholeNodes4].filterMap
    (fun c => match c with
      | [a, b] => some (a, b)
      | _ => none)

/-- The endpoints of the declared pairs, in order of declaration. -/
def wormholeEndpoints : List Nat :=
  wormholeNodes1 ++ wormholeNodes2 ++ wormholeNodes3 ++ wormholeNodes4

/-- A tunnel edge joins the two nodes of a declared pair, in either direction. -/
def tunnelLink (a b : Nat) : Bool :=
  wormholePairs.any (fun p => (p.1 == a && p.2 == b) || (p.1 == b && p.2 == a))

/-- Edges of the tunnel-enabled graph. -/
def tunnelEnabledLink (s : Scenario) (a b : Nat) : Bool := canCommunicate s a b || tunnelLink a b

/-- One round of breadth-first search: the nodes of `S` and their neighbours. -/
def expand (n : Nat) (adj : Nat → Nat → Bool) (S : List Nat) : List Nat :=
  (List.range n).filter (fun v => S.contains v || S.any (fun u => adj u v))

/-- The nodes within `k` hops of `a`. -/
def reachWithin (n : Nat) (adj : Nat → Nat → Bool) (a : Nat) : Nat → List Nat
  | 0 => [a]
  | k + 1 => expand n adj (reachWithin n adj a k)

/-- The least `k` from `k₀` on, among `fuel` candidates, with `b` within `k` hops of `a`. -/
def hopSearch (n : Nat) (adj : Nat → Nat → Bool) (a b : Nat) : Nat → Nat → Option Nat
  | 0, _ => none
  | fuel + 1, k =>
      if (reachWithin n adj a k).contains b then some k else hopSearch n adj a b fuel (k + 1)

/-- Minimum hop count from `a` to `b` in a graph on `n` nodes; `none` when unreachable. -/
def hopCount (n : Nat) (adj : Nat → Nat → Bool) (a b : Nat) : Option Nat :=
  hopSearch n adj a b n 0

/-- A walk of `k` hops that starts at `a` and stays among the nodes below `n`. -/
inductive HopPath (n : Nat) (adj : Nat → Nat → Bool) (a : Nat) : Nat → Nat → Prop where
  | start : HopPath n adj a 0 a
  | hop {k u v : Nat} : HopPath n adj a k u → adj u v = true → v < n → HopPath n adj a (k + 1) v

/-- There is a walk of `k` hops from `a` to `b` and none with fewer. -/
def IsMinHops (n : Nat) (adj : Nat → Nat → Bool) (a b k : Nat) : Prop :=
  HopPath n adj a k b ∧ ∀ j, HopPath n adj a j b → k ≤ j

/-! ## Sample runs -/

/-- The echo request delivered after one second: 1052 bytes (1024 of payload
under UDP and IP headers) sent at 2 s and received at 3 s. -/
def deliveredFlow : FlowStats :=
  { timeFirstTxPacket := Seconds 2, timeLastRxPacket := Seconds 3,
    txBytes := 1052, rxBytes := 1052, txPackets := 1, rxPackets := 1 }

/-- The echo request lost on the way: nothing received, the last-receive time
still at its initial value 0. -/
def undeliveredFlow : FlowStats :=
  { timeFirstTxPacket := Seconds 2, timeLastRxPacket := Seconds 0,
    txBytes := 1052, rxBytes := 0, txPackets := 1, rxPackets := 0 }

/-- A flow whose last-receive time equals its first-transmit time. -/
def zeroDelayFlow : FlowStats :=
  { timeFirstTxPacket := Seconds 2, timeLastRxPacket := Seconds 2,
    txBytes := 1052, rxBytes := 1052, txPackets := 1, rxPackets := 1 }

/-- A run that leaves the given statistics in the monitor; every flow is
classified as node 1 (`10.1.1.2`) to node 4 (`10.1.1.5`). -/
def sampleRun (stats : FlowStatsMap) : FlowMonitorRun :=
  { Run := fun _ => stats, FindFlow := fun _ => ⟨ipv4 10 1 1 2, ipv4 10 1 1 5⟩ }

/-! ## Closed forms of the two scenarios -/

/-- The wifi devices of line 61: device 0 of each of the 18 nodes. -/
def wifiDevices : NetDeviceContainer := (List.range 18).map (fun n => ⟨n, 0⟩)

/-- The unmodified reactive-routing scenario: 18 nodes in a line, one wifi device
and the plain AODV configuration on each, addresses `10.1.1.(i+1)`, the echo
server on node 4 and the one-packet client on node 1, stop at 100 s. -/
def plainAodvScenario (phyMode : String) : Scenario :=
  { phyMode := phyMode, TxPowerStart := 30, TxPowerEnd := 30,
    net :=
      { numNodes := 18,
        devices := wifiDevices,
        internetStacks := (List.range 18).map (fun n => (n, ({} : AodvHelper))),
        ifaddrs := (List.range 18).map (fun n => (⟨n, 0⟩, ipv4 10 1 1 (n + 1))),
        positions := (List.range 18).map (fun (n : Nat) => (n, ⟨100 * (n : Int), 0, 0⟩)) },
    mal_devices := [], mal_ipcont := [],
    serverApps := [⟨4, 9, Seconds 1, Seconds 100⟩],
    clientApps := [⟨1, ipv4 10 1 1 5, 9, 1, Seconds 1, 1024, Seconds 2, Seconds 100⟩],
    stopTime := Seconds 100 }

/-- The addresses the wormhole block gives to its own devices: `10.1.2.19` onwards. -/
def malAddrs (ds : NetDeviceContainer) : List (NetDevice × Ipv4Address) :=
  ds.enum.map (fun kd => (kd.2, Nat.lor (ipv4 10 1 2 0) (19 + kd.1)))

/-- The scenario `mainSetup` builds with the wormhole enabled, for a given
container `wormholeNodes`. -/
def enabledScenario (phyMode : String) (wormholeNodes : NodeContainer) : Scenario :=
  let plain := plainAodvScenario phyMode
  let mal := newWifiDevices wifiDevices wormholeNodes
  { plain with
    net :=
      { plain.net with
        devices := wifiDevices ++ mal,
        internetStacks :=
          plain.net.internetStacks ++ wormholeNodes.map (fun n => (n, malicious_aodv)),
        ifaddrs := plain.net.ifaddrs ++
          ((List.range 18).map (fun n => ((⟨n, 0⟩ : NetDevice), ipv4 10 1 2 (n + 1))) ++
            malAddrs mal) },
    mal_devices := mal, mal_ipcont := mal }

/-- Both hop counts exist and the tunnel-enabled one is not larger. -/
def hopsNotLonger (s : Scenario) (a b : Nat) : Bool :=
  match hopCount 18 (canCommunicate s) a b, hopCount 18 (tunnelEnabledLink s) a b with
  | some d, some t => decide (t ≤ d)
  | _, _ => false

/-! ## Facts about the helpers -/

theorem length_newWifiDevices (ex : List NetDevice) (c : NodeContainer) :
    (newWifiDevices ex c).length = c.length := by
  induction c generalizing ex with
  | nil => rfl
  | cons n c ih => simp [newWifiDevices, ih]

theorem newWifiDevices_range : newWifiDevices [] (List.range 18) = wifiDevices := by decide

theorem length_wifiDevices : wifiDevices.length = 18 := by decide

theorem hostMax_24 : 4294967295 - ipv4 255 255 255 0 - 1 = 254 := by decide

theorem plain_ifaddrs :
    List.map (fun kd => (kd.2, Nat.lor (ipv4 10 1 1 0) (1 + kd.1))) wifiDevices.enum
      = (List.range 18).map (fun n => ((⟨n, 0⟩ : NetDevice), ipv4 10 1 1 (n + 1))) := by
  decide

theorem reassigned_ifaddrs :
    List.map (fun kd => (kd.2, Nat.lor (ipv4 10 1 2 0) (1 + kd.1))) wifiDevices.enum
      = (List.range 18).map (fun n => ((⟨n, 0⟩ : NetDevice), ipv4 10 1 2 (n + 1))) := by
  decide

theorem placed_positions :
    (List.range 18).zip (positionAlloc 18)
      = (List.range 18).map (fun (n : Nat) => (n, (⟨100 * (n : Int), 0, 0⟩ : Vector))) := by
  decide

/-- The first address of node 4's wifi device stays `10.1.1.5` whatever is appended. -/
theorem getAddress_node4 (net : Net) (rest : List (NetDevice × Ipv4Address))
    (h : net.ifaddrs = (plainAodvScenario "").net.ifaddrs ++ rest) :
    Ipv4InterfaceContainer.GetAddress net wifiDevices 4 = some (ipv4 10 1 1 5) := by
  have h1 : wifiDevices.get? 4 = some ⟨4, 0⟩ := by decide
  have h2 : List.find? (fun e => e.1 == (⟨4, 0⟩ : NetDevice)) (plainAodvScenario "").net.ifaddrs
      = some (⟨4, 0⟩, ipv4 10 1 1 5) := by decide
  simp only [Ipv4InterfaceContainer.GetAddress, h, h1, Option.some_bind]
  rw [List.find?_append, h2]
  rfl

/-- With the wormhole disabled `mainSetup` returns the plain scenario. -/
theorem mainSetup_false (p : String) (wn : NodeContainer) :
    mainSetup false p wn = some (plainAodvScenario p) := by
  have hg := getAddress_node4 (plainAodvScenario p).net [] (by simp [plainAodvScenario])
  simp only [plainAodvScenario] at hg
  simp [mainSetup, WifiHelper.Install, Ipv4AddressHelper.Assign, Ipv4AddressHelper.SetBase,
    Ipv4AddressHelper.maxHost, InternetStackHelper.Install, MobilityHelper.Install,
    NodeContainer.Create, NodeContainer.Get, hostMax_24, length_wifiDevices, newWifiDevices_range, plain_ifaddrs,
    placed_positions, plainAodvScenario, hg]

/-- With the wormhole enabled `mainSetup` returns `enabledScenario`, provided the
subnet `10.1.2.0/24` has addresses left for the devices of `wormholeNodes`. -/
theorem mainSetup_true (p : String) (wn : NodeContainer) (h : wn.length ≤ 236) :
    mainSetup true p wn = some (enabledScenario p wn) := by
  have hlen : 19 + wn.length ≤ 255 := by omega
  have hg := getAddress_node4
    { numNodes := 18, devices := wifiDevices ++ newWifiDevices wifiDevices wn,
      internetStacks := (plainAodvScenario p).net.internetStacks ++
        wn.map (fun n => (n, malicious_aodv)),
      ifaddrs := (plainAodvScenario "").net.ifaddrs ++
        ((List.range 18).map (fun n => ((⟨n, 0⟩ : NetDevice), ipv4 10 1 2 (n + 1))) ++
          malAddrs (newWifiDevices wifiDevices wn)),
      positions := (plainAodvScenario p).net.positions } _ rfl
  simp only [plainAodvScenario, malAddrs] at hg
  simp [mainSetup, wormholeBlock, WifiHelper.Install, Ipv4AddressHelper.Assign,
    Ipv4AddressHelper.SetBase, Ipv4AddressHelper.maxHost, InternetStackHelper.Install,
    MobilityHelper.Install, NodeContainer.Create, NodeContainer.Get, hostMax_24, length_wifiDevices,
    newWifiDevices_range, plain_ifaddrs, reassigned_ifaddrs, placed_positions,
    length_newWifiDevices, hlen, enabledScenario, plainAodvScenario, malAddrs, hg]

/-- The scenario `mainSetup` returns, for either value of the switch. -/
theorem mainSetup_some (w : Bool) (p : String) (wn : NodeContainer)
    (h : w = true → wn.length ≤ 236) :
    mainSetup w p wn = some (if w then enabledScenario p wn else plainAodvScenario p) := by
  cases w with
  | false => simpa using mainSetup_false p wn
  | true => simpa using mainSetup_true p wn (h rfl)

/-- The wormhole block leaves node count, placement, traffic and stop time alone. -/
theorem enabledScenario_shared (p : String) (wn : NodeContainer) :
    (enabledScenario p wn).net.numNodes = (plainAodvScenario p).net.numNodes ∧
    (enabledScenario p wn).net.positions = (plainAodvScenario p).net.positions ∧
    (enabledScenario p wn).serverApps = (plainAodvScenario p).serverApps ∧
    (enabledScenario p wn).clientApps = (plainAodvScenario p).clientApps ∧
    (enabledScenario p wn).stopTime = (plainAodvScenario p).stopTime :=
  ⟨rfl, rfl, rfl, rfl, rfl⟩

/-- Where a scenario with the placement of lines 79-86 puts node `i`. -/
theorem position_eq (s : Scenario)
    (h : s.net.positions = (plainAodvScenario "").net.positions) (i : Nat) :
    s.position i = if i < 18 then some ⟨100 * (i : Int), 0, 0⟩ else none := by
  unfold Scenario.position
  rw [h]
  split
  · next hi => interval_cases i <;> rfl
  · next hi =>
    have hnone : List.find? (fun e => e.1 == i) (plainAodvScenario "").net.positions = none := by
      rw [List.find?_eq_none]
      intro e he
      simp only [plainAodvScenario, List.mem_map, List.mem_range] at he
      obtain ⟨n, hn, rfl⟩ := he
      simp only [beq_iff_eq]
      omega
    rw [hnone]
    rfl

theorem positions_some (w : Bool) (p : String) (wn : NodeContainer) :
    (if w then enabledScenario p wn else plainAodvScenario p).net.positions
      = (plainAodvScenario "").net.positions := by
  cases w <;> rfl

/-- Distance between two points of the line, from the squared distance. -/
theorem sqrt_distanceSq_line (i j : Nat) :
    Real.sqrt ((distanceSq ⟨100 * (i : Int), 0, 0⟩ ⟨100 * (j : Int), 0, 0⟩ : Int) : ℝ)
      = 100 * |(i : ℝ) - (j : ℝ)| := by
  have h : ((distanceSq ⟨100 * (i : Int), 0, 0⟩ ⟨100 * (j : Int), 0, 0⟩ : Int) : ℝ)
      = (100 * ((i : ℝ) - (j : ℝ))) ^ 2 := by
    simp only [distanceSq]
    push_cast
    ring
  rw [h, Real.sqrt_sq_eq_abs, abs_mul]
  norm_num

/-! ## The placement (C4) -/

/-- C4: the scenario has exactly 18 nodes, node `i` of `0..17` is placed at
`(100*i, 0, 0)` and no other index is placed; so every node lies on the x axis,
the distance between nodes `i` and `j` is `100*|i-j|`, and consecutive nodes
are 100 apart. -/
theorem C4_nodes_placed_in_line (w : Bool) (p : String) (wn : NodeContainer)
    (h : w = true → wn.length ≤ 236) :
    ∃ s, mainSetup w p wn = some s ∧ s.net.numNodes = 18 ∧
      s.net.positions.map (fun e => e.1) = List.range 18 ∧
      (∀ i, i < 18 → s.position i = some ⟨100 * (i : Int), 0, 0⟩) ∧
      (∀ i, 18 ≤ i → s.position i = none) ∧
      (∀ i j a b, s.position i = some a → s.position j = some b →
        a.y = 0 ∧ a.z = 0 ∧
        Real.sqrt ((distanceSq a b : Int) : ℝ) = 100 * |(i : ℝ) - (j : ℝ)|) ∧
      (∀ i a b, s.position i = some a → s.position (i + 1) = some b →
        Real.sqrt ((distanceSq a b : Int) : ℝ) = 100) := by
  refine ⟨_, mainSetup_some w p wn h, ?_, ?_, ?_, ?_, ?_, ?_⟩
  · cases w <;> rfl
  · rw [positions_some]; decide
  · intro i hi
    rw [position_eq _ (positions_some w p wn), if_pos hi]
  · intro i hi
    rw [position_eq _ (positions_some w p wn), if_neg (by omega)]
  · intro i j a b ha hb
    rw [position_eq _ (positions_some w p wn)] at ha hb
    split at ha
    · split at hb
      · cases ha; cases hb
        exact ⟨rfl, rfl, sqrt_distanceSq_line i j⟩
      · cases hb
    · cases ha
  · intro i a b ha hb
    rw [position_eq _ (positions_some w p wn)] at ha hb
    split at ha
    · split at hb
      · cases ha; cases hb
        rw [sqrt_distanceSq_line i (i + 1)]
        push_cast
        have : (i : ℝ) - ((i : ℝ) + 1) = -1 := by ring
        rw [this]
        norm_num
      · cases hb
    · cases ha

/-- The placement statement at `EnableWormhole=true` with nodes 0 and 5 as `wormholeNodes`. -/
theorem C4_nodes_placed_in_line_witness :
    ∃ s, mainSetup true "DsssRate1Mbps" [0, 5] = some s ∧ s.net.numNodes = 18 ∧
      s.net.positions.map (fun e => e.1) = List.range 18 ∧
      (∀ i, i < 18 → s.position i = some ⟨100 * (i : Int), 0, 0⟩) ∧
      (∀ i, 18 ≤ i → s.position i = none) ∧
      (∀ i j a b, s.position i = some a → s.position j = some b →
        a.y = 0 ∧ a.z = 0 ∧
        Real.sqrt ((distanceSq a b : Int) : ℝ) = 100 * |(i : ℝ) - (j : ℝ)|) ∧
      (∀ i a b, s.position i = some a → s.position (i + 1) = some b →
        Real.sqrt ((distanceSq a b : Int) : ℝ) = 100) :=
  C4_nodes_placed_in_line true "DsssRate1Mbps" [0, 5] (fun _ => by decide)

/-! ## The declared endpoints (C8) -/

/-- C8: the four declared pairs are `(0,5)`, `(2,8)`, `(7,10)`, `(11,16)`; every
endpoint is the index of a created node, the two ends of a pair differ, and no
node index occurs twice among the endpoints, so a node is in at most one pair. -/
theorem C8_declared_endpoints_well_formed (w : Bool) (p : String) (wn : NodeContainer)
    (h : w = true → wn.length ≤ 236) :
    ∃ s, mainSetup w p wn = some s ∧
      wormholePairs = [(0, 5), (2, 8), (7, 10), (11, 16)] ∧
      wormholeEndpoints = [0, 5, 2, 8, 7, 10, 11, 16] ∧
      (∀ e ∈ wormholeEndpoints, e < s.net.numNodes) ∧
      (∀ pr ∈ wormholePairs, pr.1 ≠ pr.2) ∧
      wormholeEndpoints.Nodup ∧
      (∀ n, (wormholePairs.filter (fun pr => pr.1 == n || pr.2 == n)).length ≤ 1) := by
  refine ⟨_, mainSetup_some w p wn h, by decide, by decide, ?_, by decide, by decide, ?_⟩
  · have hn : (if w then enabledScenario p wn else plainAodvScenario p).net.numNodes = 18 := by
      cases w <;> rfl
    rw [hn]
    decide
  · intro n
    by_cases hn : n < 18
    · interval_cases n <;> decide
    · have : wormholePairs.filter (fun pr => pr.1 == n || pr.2 == n) = [] := by
        rw [List.filter_eq_nil_iff]
        intro pr hpr
        have hb : pr.1 < 18 ∧ pr.2 < 18 := by
          revert pr
          decide
        simp only [Bool.or_eq_true, beq_iff_eq]
        omega
      rw [this]
      exact Nat.zero_le _

/-- The endpoint statement at `EnableWormhole=true` with nodes 0 and 5 as `wormholeNodes`. -/
theorem C8_declared_endpoints_well_formed_witness :
    ∃ s, mainSetup true "DsssRate1Mbps" [0, 5] = some s ∧
      wormholePairs = [(0, 5), (2, 8), (7, 10), (11, 16)] ∧
      wormholeEndpoints = [0, 5, 2, 8, 7, 10, 11, 16] ∧
      (∀ e ∈ wormholeEndpoints, e < s.net.numNodes) ∧
      (∀ pr ∈ wormholePairs, pr.1 ≠ pr.2) ∧
      wormholeEndpoints.Nodup ∧
      (∀ n, (wormholePairs.filter (fun pr => pr.1 == n || pr.2 == n)).length ≤ 1) :=
  C8_declared_endpoints_well_formed true "DsssRate1Mbps" [0, 5] (fun _ => by decide)

/-! ## Addresses (C9, C5) -/

set_option maxRecDepth 100000 in
/-- Host numbers 19 to 254 of `10.1.2.0/24` stay inside that subnet and outside `10.1.1.0/24`. -/
theorem malAddr_subnet : ∀ k, k < 236 →
    inSubnet (Nat.lor (ipv4 10 1 2 0) (19 + k)) (ipv4 10 1 2 0) (ipv4 255 255 255 0) = true ∧
    inSubnet (Nat.lor (ipv4 10 1 2 0) (19 + k)) (ipv4 10 1 1 0) (ipv4 255 255 255 0) = false := by
  decide

/-- Every address the wormhole block gives to its own devices lies in `10.1.2.0/24`. -/
theorem malAddrs_subnet (ds : NetDeviceContainer) (h : ds.length ≤ 236) :
    ∀ e ∈ malAddrs ds,
      inSubnet e.2 (ipv4 10 1 2 0) (ipv4 255 255 255 0) = true ∧
      inSubnet e.2 (ipv4 10 1 1 0) (ipv4 255 255 255 0) = false := by
  intro e he
  simp only [malAddrs, List.mem_map] at he
  obtain ⟨kd, hkd, rfl⟩ := he
  exact malAddr_subnet kd.1 (lt_of_lt_of_le (List.fst_lt_of_mem_enum hkd) h)

/-- C9: the two tunnel ends the malicious routing helper declares are `10.0.2.1`
and `10.0.2.2`; masked with `255.255.255.0` both give `10.0.2.0`, so neither
lies in `10.1.2.0/24` nor in `10.1.1.0/24`; and every address the enabled
scenario assigns to a device lies in one of these two subnets, so no device
carries a declared tunnel address. -/
theorem C9_tunnel_ends_outside_assigned_subnets (p : String) (wn : NodeContainer)
    (h : wn.length ≤ 236) :
    malicious_aodv.attributes =
      [("EnableWrmAttack", .BooleanValue true),
       ("FirstWifiEndOfWormTunnel", .Ipv4AddressValue (ipv4 10 0 2 1)),
       ("SecondWifiEndOfWormTunnel", .Ipv4AddressValue (ipv4 10 0 2 2))] ∧
    CombineMask (ipv4 10 0 2 1) (ipv4 255 255 255 0) = ipv4 10 0 2 0 ∧
    CombineMask (ipv4 10 0 2 2) (ipv4 255 255 255 0) = ipv4 10 0 2 0 ∧
    inSubnet (ipv4 10 0 2 1) (ipv4 10 1 2 0) (ipv4 255 255 255 0) = false ∧
    inSubnet (ipv4 10 0 2 2) (ipv4 10 1 2 0) (ipv4 255 255 255 0) = false ∧
    inSubnet (ipv4 10 0 2 1) (ipv4 10 1 1 0) (ipv4 255 255 255 0) = false ∧
    inSubnet (ipv4 10 0 2 2) (ipv4 10 1 1 0) (ipv4 255 255 255 0) = false ∧
    ∃ s, mainSetup true p wn = some s ∧
      (∀ e ∈ s.net.internetStacks, e.2.attributes ≠ [] → e.2 = malicious_aodv) ∧
      (∀ e ∈ s.net.ifaddrs,
        (inSubnet e.2 (ipv4 10 1 1 0) (ipv4 255 255 255 0) = true ∨
          inSubnet e.2 (ipv4 10 1 2 0) (ipv4 255 255 255 0) = true) ∧
        e.2 ≠ ipv4 10 0 2 1 ∧ e.2 ≠ ipv4 10 0 2 2) := by
  refine ⟨by decide, by decide, by decide, by decide, by decide, by decide, by decide,
    _, mainSetup_true p wn h, ?_, ?_⟩
  · intro e he hne
    simp only [enabledScenario, plainAodvScenario, List.mem_append, List.mem_map] at he
    rcases he with ⟨n, _, rfl⟩ | ⟨n, _, rfl⟩
    · exact absurd rfl hne
    · rfl
  · have key : ∀ a : Ipv4Address,
        (inSubnet a (ipv4 10 1 1 0) (ipv4 255 255 255 0) = true ∨
          inSubnet a (ipv4 10 1 2 0) (ipv4 255 255 255 0) = true) →
        a ≠ ipv4 10 0 2 1 ∧ a ≠ ipv4 10 0 2 2 := by
      intro a ha
      constructor
      · rintro rfl
        revert ha
        decide
      · rintro rfl
        revert ha
        decide
    intro e he
    have hsub : inSubnet e.2 (ipv4 10 1 1 0) (ipv4 255 255 255 0) = true ∨
        inSubnet e.2 (ipv4 10 1 2 0) (ipv4 255 255 255 0) = true := by
      simp only [enabledScenario, plainAodvScenario, List.mem_append] at he
      rcases he with he | he | he
      · left
        revert e
        decide
      · right
        revert e
        decide
      · right
        exact (malAddrs_subnet _ (by rw [length_newWifiDevices]; exact h) e he).1
    exact ⟨hsub, key e.2 hsub⟩

/-- The address statement with nodes 0 and 5 as `wormholeNodes`. -/
theorem C9_tunnel_ends_outside_assigned_subnets_witness :
    [0, 5].length ≤ 236 ∧
    malicious_aodv.attributes =
      [("EnableWrmAttack", .BooleanValue true),
       ("FirstWifiEndOfWormTunnel", .Ipv4AddressValue (ipv4 10 0 2 1)),
       ("SecondWifiEndOfWormTunnel", .Ipv4AddressValue (ipv4 10 0 2 2))] ∧
    CombineMask (ipv4 10 0 2 1) (ipv4 255 255 255 0) = ipv4 10 0 2 0 ∧
    CombineMask (ipv4 10 0 2 2) (ipv4 255 255 255 0) = ipv4 10 0 2 0 ∧
    inSubnet (ipv4 10 0 2 1) (ipv4 10 1 2 0) (ipv4 255 255 255 0) = false ∧
    inSubnet (ipv4 10 0 2 2) (ipv4 10 1 2 0) (ipv4 255 255 255 0) = false ∧
    inSubnet (ipv4 10 0 2 1) (ipv4 10 1 1 0) (ipv4 255 255 255 0) = false ∧
    inSubnet (ipv4 10 0 2 2) (ipv4 10 1 1 0) (ipv4 255 255 255 0) = false ∧
    ∃ s, mainSetup true "DsssRate1Mbps" [0, 5] = some s ∧
      (∀ e ∈ s.net.internetStacks, e.2.attributes ≠ [] → e.2 = malicious_aodv) ∧
      (∀ e ∈ s.net.ifaddrs,
        (inSubnet e.2 (ipv4 10 1 1 0) (ipv4 255 255 255 0) = true ∨
          inSubnet e.2 (ipv4 10 1 2 0) (ipv4 255 255 255 0) = true) ∧
        e.2 ≠ ipv4 10 0 2 1 ∧ e.2 ≠ ipv4 10 0 2 2) :=
  ⟨by decide, C9_tunnel_ends_outside_assigned_subnets "DsssRate1Mbps" [0, 5] (by decide)⟩

/-- C5: for either value of `EnableWormhole` the scenario has exactly one client,
on node 1, starting at 2 s, sending at most one packet of 1024 bytes to
`10.1.1.5`, and exactly one server, on node 4, starting at 1 s.  `10.1.1.5`
lies in `10.1.1.0/24` and is the one address the original assignment (the
scenario with the wormhole disabled) gives to node 4; it remains the first
address of node 4's interface although, with the wormhole enabled, the block
adds `10.1.2.5` to the same interface. -/
theorem C5_one_flow_from_node1_to_node4 (w : Bool) (p : String) (wn : NodeContainer)
    (h : w = true → wn.length ≤ 236) :
    ∃ s s₀, mainSetup w p wn = some s ∧ mainSetup false p wn = some s₀ ∧
      s.clientApps = [⟨1, ipv4 10 1 1 5, 9, 1, Seconds 1, 1024, Seconds 2, Seconds 100⟩] ∧
      s.serverApps = [⟨4, 9, Seconds 1, Seconds 100⟩] ∧
      s₀.net.ifaddrs.filter (fun e => e.1.node == 4) = [(⟨4, 0⟩, ipv4 10 1 1 5)] ∧
      inSubnet (ipv4 10 1 1 5) (ipv4 10 1 1 0) (ipv4 255 255 255 0) = true ∧
      Ipv4InterfaceContainer.GetAddress s.net wifiDevices 4 = some (ipv4 10 1 1 5) ∧
      (w = true → (⟨4, 0⟩, ipv4 10 1 2 5) ∈ s.net.ifaddrs) := by
  refine ⟨_, _, mainSetup_some w p wn h, mainSetup_false p wn, ?_, ?_, ?_, by decide, ?_, ?_⟩
  · cases w <;> rfl
  · cases w <;> rfl
  · simp only [plainAodvScenario]
    decide
  · cases w with
    | false => exact getAddress_node4 _ [] (by simp [plainAodvScenario])
    | true => exact getAddress_node4 _ _ rfl
  · intro hw
    subst hw
    simp only [enabledScenario, plainAodvScenario, if_true, List.mem_append]
    right; left
    decide

/-- The traffic statement at `EnableWormhole=true` with nodes 0 and 5 as `wormholeNodes`. -/
theorem C5_one_flow_from_node1_to_node4_witness :
    ∃ s s₀, mainSetup true "DsssRate1Mbps" [0, 5] = some s ∧
      mainSetup false "DsssRate1Mbps" [0, 5] = some s₀ ∧
      s.clientApps = [⟨1, ipv4 10 1 1 5, 9, 1, Seconds 1, 1024, Seconds 2, Seconds 100⟩] ∧
      s.serverApps = [⟨4, 9, Seconds 1, Seconds 100⟩] ∧
      s₀.net.ifaddrs.filter (fun e => e.1.node == 4) = [(⟨4, 0⟩, ipv4 10 1 1 5)] ∧
      inSubnet (ipv4 10 1 1 5) (ipv4 10 1 1 0) (ipv4 255 255 255 0) = true ∧
      Ipv4InterfaceContainer.GetAddress s.net wifiDevices 4 = some (ipv4 10 1 1 5) ∧
      (true = true → (⟨4, 0⟩, ipv4 10 1 2 5) ∈ s.net.ifaddrs) :=
  C5_one_flow_from_node1_to_node4 true "DsssRate1Mbps" [0, 5] (fun _ => by decide)

/-! ## Disabling the wormhole (C6) -/

/-- C6: with `EnableWormhole=false` `mainSetup` returns exactly the plain AODV
scenario: no device beyond the one wifi device per node, no address in
`10.1.2.0/24`, every node installed once with a routing helper that has no
attribute set.  The wormhole-enabled scenario has the same node count,
positions, addresses in `10.1.1.0/24`, applications and stop time. -/
theorem C6_disabled_is_plain_aodv (p : String) (wn : NodeContainer) (h : wn.length ≤ 236) :
    ∃ s₀ s₁, mainSetup false p wn = some s₀ ∧ mainSetup true p wn = some s₁ ∧
      s₀ = plainAodvScenario p ∧
      s₀.mal_devices = [] ∧ s₀.mal_ipcont = [] ∧
      s₀.net.devices = (List.range 18).map (fun n => ⟨n, 0⟩) ∧
      (∀ e ∈ s₀.net.ifaddrs, inSubnet e.2 (ipv4 10 1 2 0) (ipv4 255 255 255 0) = false) ∧
      s₀.net.internetStacks.map (fun e => e.1) = List.range 18 ∧
      (∀ e ∈ s₀.net.internetStacks, e.2.attributes = []) ∧
      s₁.net.numNodes = s₀.net.numNodes ∧
      s₁.net.positions = s₀.net.positions ∧
      s₁.net.ifaddrs.filter (fun e => inSubnet e.2 (ipv4 10 1 1 0) (ipv4 255 255 255 0))
        = s₀.net.ifaddrs ∧
      s₁.serverApps = s₀.serverApps ∧ s₁.clientApps = s₀.clientApps ∧
      s₁.stopTime = s₀.stopTime := by
  refine ⟨_, _, mainSetup_false p wn, mainSetup_true p wn h, rfl, rfl, rfl, rfl, ?_, ?_, ?_,
    rfl, rfl, ?_, rfl, rfl, rfl⟩
  · simp only [plainAodvScenario]
    decide
  · simp only [plainAodvScenario]
    decide
  · simp only [plainAodvScenario]
    decide
  · have hmal : (malAddrs (newWifiDevices wifiDevices wn)).filter
        (fun e => inSubnet e.2 (ipv4 10 1 1 0) (ipv4 255 255 255 0)) = [] := by
      rw [List.filter_eq_nil_iff]
      intro e he
      have := (malAddrs_subnet _ (by rw [length_newWifiDevices]; exact h) e he).2
      simp [this]
    simp only [enabledScenario, plainAodvScenario, List.filter_append, hmal, List.append_nil]
    decide

/-- The comparison of the two scenarios with nodes 0 and 5 as `wormholeNodes`. -/
theorem C6_disabled_is_plain_aodv_witness :
    ∃ s₀ s₁, mainSetup false "DsssRate1Mbps" [0, 5] = some s₀ ∧
      mainSetup true "DsssRate1Mbps" [0, 5] = some s₁ ∧
      s₀ = plainAodvScenario "DsssRate1Mbps" ∧
      s₀.mal_devices = [] ∧ s₀.mal_ipcont = [] ∧
      s₀.net.devices = (List.range 18).map (fun n => ⟨n, 0⟩) ∧
      (∀ e ∈ s₀.net.ifaddrs, inSubnet e.2 (ipv4 10 1 2 0) (ipv4 255 255 255 0) = false) ∧
      s₀.net.internetStacks.map (fun e => e.1) = List.range 18 ∧
      (∀ e ∈ s₀.net.internetStacks, e.2.attributes = []) ∧
      s₁.net.numNodes = s₀.net.numNodes ∧
      s₁.net.positions = s₀.net.positions ∧
      s₁.net.ifaddrs.filter (fun e => inSubnet e.2 (ipv4 10 1 1 0) (ipv4 255 255 255 0))
        = s₀.net.ifaddrs ∧
      s₁.serverApps = s₀.serverApps ∧ s₁.clientApps = s₀.clientApps ∧
      s₁.stopTime = s₀.stopTime :=
  C6_disabled_is_plain_aodv "DsssRate1Mbps" [0, 5] (by decide)

/-! ## Hop counts (C7) -/

theorem hopPath_lt {n : Nat} {adj : Nat → Nat → Bool} {a k v : Nat} (ha : a < n)
    (h : HopPath n adj a k v) : v < n := by
  cases h with
  | start => exact ha
  | hop _ _ hv => exact hv

theorem mem_expand {n : Nat} {adj : Nat → Nat → Bool} {S : List Nat} {v : Nat} :
    v ∈ expand n adj S ↔ v < n ∧ (v ∈ S ∨ ∃ u, u ∈ S ∧ adj u v = true) := by
  simp [expand]

/-- The search sets are exactly the nodes reached by a walk of at most `k` hops. -/
theorem mem_reachWithin {n : Nat} {adj : Nat → Nat → Bool} {a : Nat} (ha : a < n) (k v : Nat) :
    v ∈ reachWithin n adj a k ↔ ∃ j, j ≤ k ∧ HopPath n adj a j v := by
  induction k generalizing v with
  | zero =>
    simp only [reachWithin, List.mem_singleton]
    constructor
    · rintro rfl
      exact ⟨0, le_refl 0, HopPath.start⟩
    · rintro ⟨j, hj, hp⟩
      have hj0 : j = 0 := by omega
      subst hj0
      cases hp
      rfl
  | succ k ih =>
    simp only [reachWithin, mem_expand]
    constructor
    · rintro ⟨hv, hS | ⟨u, hu, huv⟩⟩
      · obtain ⟨j, hj, hp⟩ := (ih v).1 hS
        exact ⟨j, by omega, hp⟩
      · obtain ⟨j, hj, hp⟩ := (ih u).1 hu
        exact ⟨j + 1, by omega, HopPath.hop hp huv hv⟩
    · rintro ⟨j, hj, hp⟩
      refine ⟨hopPath_lt ha hp, ?_⟩
      by_cases hjk : j ≤ k
      · exact Or.inl ((ih v).2 ⟨j, hjk, hp⟩)
      · have hj1 : j = k + 1 := by omega
        subst hj1
        cases hp with
        | hop hp' huv _ => exact Or.inr ⟨_, (ih _).2 ⟨k, le_refl k, hp'⟩, huv⟩

theorem hopSearch_some {n : Nat} {adj : Nat → Nat → Bool} {a b : Nat} (fuel k₀ k : Nat)
    (h : hopSearch n adj a b fuel k₀ = some k) :
    k₀ ≤ k ∧ b ∈ reachWithin n adj a k ∧ ∀ j, k₀ ≤ j → j < k → b ∉ reachWithin n adj a j := by
  induction fuel generalizing k₀ with
  | zero => simp [hopSearch] at h
  | succ fuel ih =>
    simp only [hopSearch] at h
    split at h
    · next hc =>
      cases h
      refine ⟨le_refl _, by simpa using hc, ?_⟩
      intro j h1 h2
      omega
    · next hc =>
      obtain ⟨h1, h2, h3⟩ := ih (k₀ + 1) h
      refine ⟨by omega, h2, ?_⟩
      intro j hj1 hj2
      by_cases hjk : j = k₀
      · subst hjk
        simpa using hc
      · exact h3 j (by omega) hj2

/-- What `hopCount` returns is the minimum number of hops of a walk from `a` to `b`. -/
theorem hopCount_isMinHops {n : Nat} {adj : Nat → Nat → Bool} {a b k : Nat} (ha : a < n)
    (h : hopCount n adj a b = some k) : IsMinHops n adj a b k := by
  obtain ⟨_, h2, h3⟩ := hopSearch_some n 0 k h
  obtain ⟨j, hj, hp⟩ := (mem_reachWithin ha k b).1 h2
  have hmin : ∀ i, HopPath n adj a i b → k ≤ i := by
    intro i hi
    by_contra hlt
    exact h3 i (Nat.zero_le _) (by omega) ((mem_reachWithin ha i b).2 ⟨i, le_refl i, hi⟩)
  have hjk : j = k := le_antisymm hj (hmin j hp)
  subst hjk
  exact ⟨hp, hmin⟩

/-- The link predicates only look at the placement. -/
theorem canCommunicate_congr (s t : Scenario) (h : s.net.positions = t.net.positions) :
    canCommunicate s = canCommunicate t := by
  funext a b
  simp only [canCommunicate, Scenario.position, h]

theorem tunnelEnabledLink_congr (s t : Scenario) (h : s.net.positions = t.net.positions) :
    tunnelEnabledLink s = tunnelEnabledLink t := by
  funext a b
  simp only [tunnelEnabledLink, canCommunicate_congr s t h]

theorem canCommunicate_line : ∀ a, a < 18 → ∀ b, b < 18 →
    (canCommunicate (plainAodvScenario "") a b = true ↔ a ≠ b ∧ a ≤ b + 2 ∧ b ≤ a + 2) := by
  decide

set_option maxRecDepth 100000 in
theorem hopsNotLonger_line : ∀ a, a < 18 → ∀ b, b < 18 →
    hopsNotLonger (plainAodvScenario "") a b = true := by
  decide

theorem hopCount_flow :
    hopCount 18 (canCommunicate (plainAodvScenario "")) 1 4 = some 2 ∧
    hopCount 18 (tunnelEnabledLink (plainAodvScenario "")) 1 4 = some 2 := by
  decide

/-- C7: in the graph on nodes `0..17` whose edges join distinct nodes at most 250
apart (that is, at most two places apart on the line), and in the graph that
adds the four declared pairs as edges, every two nodes are joined by a walk;
`hopCount` gives the minimum number of hops in each graph, and the minimum with
the tunnel edges is never larger than without.  For the flow from node 1 to
node 4 both are 2. -/
theorem C7_tunnel_never_lengthens_routes (w : Bool) (p : String) (wn : NodeContainer)
    (h : w = true → wn.length ≤ 236) :
    ∃ s, mainSetup w p wn = some s ∧
      (∀ a b, a < 18 → b < 18 →
        (canCommunicate s a b = true ↔ a ≠ b ∧ a ≤ b + 2 ∧ b ≤ a + 2) ∧
        (tunnelEnabledLink s a b = true ↔
          canCommunicate s a b = true ∨ (a, b) ∈ wormholePairs ∨ (b, a) ∈ wormholePairs)) ∧
      (∀ a b, a < 18 → b < 18 → ∃ d t,
        hopCount 18 (canCommunicate s) a b = some d ∧
        hopCount 18 (tunnelEnabledLink s) a b = some t ∧
        IsMinHops 18 (canCommunicate s) a b d ∧
        IsMinHops 18 (tunnelEnabledLink s) a b t ∧
        t ≤ d) ∧
      hopCount 18 (canCommunicate s) 1 4 = some 2 ∧
      hopCount 18 (tunnelEnabledLink s) 1 4 = some 2 := by
  have hpos := positions_some w p wn
  refine ⟨_, mainSetup_some w p wn h, ?_, ?_, ?_⟩
  · intro a b ha hb
    refine ⟨?_, ?_⟩
    · rw [canCommunicate_congr _ _ hpos]
      exact canCommunicate_line a ha b hb
    · simp only [tunnelEnabledLink, tunnelLink, Bool.or_eq_true, List.any_eq_true,
        Bool.and_eq_true, beq_iff_eq]
      constructor
      · rintro (hc | ⟨pr, hpr, ⟨h1, h2⟩ | ⟨h1, h2⟩⟩)
        · exact Or.inl hc
        · subst h1 h2
          exact Or.inr (Or.inl hpr)
        · subst h1 h2
          exact Or.inr (Or.inr hpr)
      · rintro (hc | hpr | hpr)
        · exact Or.inl hc
        · exact Or.inr ⟨_, hpr, Or.inl ⟨rfl, rfl⟩⟩
        · exact Or.inr ⟨_, hpr, Or.inr ⟨rfl, rfl⟩⟩
  · intro a b ha hb
    have hline := hopsNotLonger_line a ha b hb
    rw [canCommunicate_congr _ _ hpos, tunnelEnabledLink_congr _ _ hpos]
    unfold hopsNotLonger at hline
    split at hline
    · next d t hd ht =>
      exact ⟨d, t, hd, ht, hopCount_isMinHops ha hd, hopCount_isMinHops ha ht,
        of_decide_eq_true hline⟩
    · cases hline
  · rw [canCommunicate_congr _ _ hpos, tunnelEnabledLink_congr _ _ hpos]
    exact hopCount_flow

/-- The hop-count statement at `EnableWormhole=true` with nodes 0 and 5 as `wormholeNodes`. -/
theorem C7_tunnel_never_lengthens_routes_witness :
    ∃ s, mainSetup true "DsssRate1Mbps" [0, 5] = some s ∧
      (∀ a b, a < 18 → b < 18 →
        (canCommunicate s a b = true ↔ a ≠ b ∧ a ≤ b + 2 ∧ b ≤ a + 2) ∧
        (tunnelEnabledLink s a b = true ↔
          canCommunicate s a b = true ∨ (a, b) ∈ wormholePairs ∨ (b, a) ∈ wormholePairs)) ∧
      (∀ a b, a < 18 → b < 18 → ∃ d t,
        hopCount 18 (canCommunicate s) a b = some d ∧
        hopCount 18 (tunnelEnabledLink s) a b = some t ∧
        IsMinHops 18 (canCommunicate s) a b d ∧
        IsMinHops 18 (tunnelEnabledLink s) a b t ∧
        t ≤ d) ∧
      hopCount 18 (canCommunicate s) 1 4 = some 2 ∧
      hopCount 18 (tunnelEnabledLink s) 1 4 = some 2 :=
  C7_tunnel_never_lengthens_routes true "DsssRate1Mbps" [0, 5] (fun _ => by decide)

/-! ## The report (C1, C2) -/

theorem getSeconds_sub_eq_zero (a b : Time) : a.GetSeconds - b.GetSeconds = 0 ↔ a = b := by
  cases a with
  | mk x =>
    cases b with
    | mk y =>
      simp only [Time.GetSeconds, Time.mk.injEq]
      constructor
      · intro h
        have h2 : (x : ℚ) = (y : ℚ) := by
          field_simp at h
          linarith
        exact_mod_cast h2
      · rintro rfl
        ring

/-- The value of the throughput expression of line 164, by cases on its divisor. -/
theorem throughput_eq (s : FlowStats) :
    throughput s =
      if s.timeLastRxPacket = s.timeFirstTxPacket then
        (if s.rxBytes = 0 then Double.nan else Double.infinite false)
      else
        Double.finite ((s.rxBytes : ℚ) * 8 /
          (s.timeLastRxPacket.GetSeconds - s.timeFirstTxPacket.GetSeconds) / 1048576) := by
  by_cases h : s.timeLastRxPacket = s.timeFirstTxPacket
  · have h0 : s.timeLastRxPacket.GetSeconds - s.timeFirstTxPacket.GetSeconds = 0 :=
      (getSeconds_sub_eq_zero _ _).2 h
    by_cases hr : s.rxBytes = 0
    · simp [throughput, Double.div, h, hr]
    · have hr' : ¬ ((s.rxBytes : ℚ) * 8 = 0) := by
        have : (s.rxBytes : ℚ) ≠ 0 := by exact_mod_cast hr
        simpa using this
      have hneg : ¬ ((s.rxBytes : ℚ) * 8 < 0) := by
        have : (0 : ℚ) ≤ (s.rxBytes : ℚ) := by exact_mod_cast Nat.zero_le _
        linarith
      simp only [throughput, h0, Double.div, if_true, if_neg hr', hneg, decide_False, h, hr,
        if_false]
      simp
  · have h0 : ¬ (s.timeLastRxPacket.GetSeconds - s.timeFirstTxPacket.GetSeconds = 0) :=
      fun hz => h ((getSeconds_sub_eq_zero _ _).1 hz)
    simp only [throughput, Double.div, if_neg h0, if_neg h]
    norm_num
    ring

/-- C1: for the delivered echo flow (1052 bytes received, first transmit at 2 s,
last receive at 3 s) the report prints `1052*8/1/1024/1024 = 263/32768` before
the label `Mbps`, whereas the throughput in Mbps, `1052*8/1/1000000`, is
`263/31250`: the program divides by 1048576 where the unit it prints calls for
1000000. -/
theorem C1_report_divides_by_1048576 :
    deliveredFlow.timeLastRxPacket ≠ deliveredFlow.timeFirstTxPacket ∧
    printFlowStats (sampleRun [(1, deliveredFlow)]).FindFlow [(1, deliveredFlow)] =
      [{ flowId := 1, sourceAddress := ipv4 10 1 1 2, destinationAddress := ipv4 10 1 1 5,
         txBytes := 1052, rxBytes := 1052, throughputMbps := Double.finite (263 / 32768) }] ∧
    (deliveredFlow.rxBytes : ℚ) * 8 /
        (deliveredFlow.timeLastRxPacket.GetSeconds - deliveredFlow.timeFirstTxPacket.GetSeconds) /
        1000000 = 263 / 31250 ∧
    throughput deliveredFlow ≠ Double.finite (263 / 31250) := by
  have ht : throughput deliveredFlow = Double.finite (263 / 32768) := by
    rw [throughput_eq, if_neg (by decide)]
    simp only [deliveredFlow, Time.GetSeconds, Seconds]
    norm_num
  refine ⟨by decide, ?_, ?_, ?_⟩
  · simp only [printFlowStats, sampleRun, List.map, ht]
    rfl
  · simp only [deliveredFlow, Time.GetSeconds, Seconds]
    norm_num
  · rw [ht]
    intro h
    injection h with h
    norm_num at h

/-- C2, as stated, fails: the flow of the lost echo request has zero received
packets, yet the report has a record for it whose throughput is the number
`0*8/(0-2)/1024/1024 = 0`, not not-a-number; and for a flow whose two times
coincide the expression divides by zero, giving an infinity. -/
theorem C2_zero_received_reported_as_number :
    undeliveredFlow.rxPackets = 0 ∧
    printFlowStats (sampleRun [(1, undeliveredFlow)]).FindFlow [(1, undeliveredFlow)] =
      [{ flowId := 1, sourceAddress := ipv4 10 1 1 2, destinationAddress := ipv4 10 1 1 5,
         txBytes := 1052, rxBytes := 0, throughputMbps := Double.finite 0 }] ∧
    throughput undeliveredFlow ≠ Double.nan ∧
    zeroDelayFlow.timeLastRxPacket = zeroDelayFlow.timeFirstTxPacket ∧
    zeroDelayFlow.timeLastRxPacket.GetSeconds - zeroDelayFlow.timeFirstTxPacket.GetSeconds = 0 ∧
    throughput zeroDelayFlow = Double.infinite false := by
  have ht : throughput undeliveredFlow = Double.finite 0 := by
    rw [throughput_eq, if_neg (by decide)]
    simp [undeliveredFlow]
  refine ⟨rfl, ?_, ?_, rfl, ?_, ?_⟩
  · simp only [printFlowStats, sampleRun, List.map, ht]
    rfl
  · rw [ht]
    intro h
    cases h
  · exact (getSeconds_sub_eq_zero _ _).2 rfl
  · rw [throughput_eq,
      if_pos (show zeroDelayFlow.timeLastRxPacket = zeroDelayFlow.timeFirstTxPacket from rfl),
      if_neg (by decide)]

/-- C2, amended: the report has one record for every flow of the statistics map,
none is left out, and the throughput expression has no guard.  For a flow
whose last-receive time equals its first-transmit time the divisor
`lastReceiveTime - firstTransmitTime` is zero and the division is performed
all the same: the reported value is not-a-number when `receivedBytes` is 0
and positive infinity otherwise.  For a flow that received nothing and whose
two times differ (zero received packets, last-receive time still 0) the
reported value is the number zero. -/
theorem C2_throughput_division_is_unguarded (FindFlow : FlowId → FiveTuple)
    (stats : FlowStatsMap) :
    (printFlowStats FindFlow stats).map (fun r => r.flowId) = stats.map (fun i => i.1) ∧
    (printFlowStats FindFlow stats).map (fun r => r.throughputMbps)
      = stats.map (fun i => throughput i.2) ∧
    ∀ s : FlowStats,
      (s.timeLastRxPacket = s.timeFirstTxPacket →
        s.timeLastRxPacket.GetSeconds - s.timeFirstTxPacket.GetSeconds = 0 ∧
        (s.rxBytes = 0 → throughput s = Double.nan) ∧
        (s.rxBytes ≠ 0 → throughput s = Double.infinite false)) ∧
      (s.timeLastRxPacket ≠ s.timeFirstTxPacket → s.rxBytes = 0 →
        throughput s = Double.finite 0) := by
  refine ⟨?_, ?_, ?_⟩
  · simp [printFlowStats]
  · simp [printFlowStats]
  · intro s
    refine ⟨?_, ?_⟩
    · intro h
      refine ⟨(getSeconds_sub_eq_zero _ _).2 h, ?_, ?_⟩
      · intro hr
        rw [throughput_eq, if_pos h, if_pos hr]
      · intro hr
        rw [throughput_eq, if_pos h, if_neg hr]
    · intro h hr
      rw [throughput_eq, if_neg h, hr]
      simp

/-- The lost echo request (different times, nothing received) is reported as 0;
the flow with equal times and 1052 received bytes divides by zero and is
reported as positive infinity. -/
theorem C2_throughput_division_is_unguarded_witness :
    (undeliveredFlow.timeLastRxPacket ≠ undeliveredFlow.timeFirstTxPacket ∧
      undeliveredFlow.rxBytes = 0 ∧
      throughput undeliveredFlow = Double.finite 0) ∧
    (zeroDelayFlow.timeLastRxPacket = zeroDelayFlow.timeFirstTxPacket ∧
      zeroDelayFlow.rxBytes ≠ 0 ∧
      zeroDelayFlow.timeLastRxPacket.GetSeconds - zeroDelayFlow.timeFirstTxPacket.GetSeconds = 0 ∧
      throughput zeroDelayFlow = Double.infinite false) :=
  ⟨⟨by decide, rfl,
    ((C2_throughput_division_is_unguarded (sampleRun []).FindFlow
      [(1, undeliveredFlow)]).2.2 undeliveredFlow).2 (by decide) rfl⟩,
   ⟨rfl, by decide,
    (((C2_throughput_division_is_unguarded (sampleRun []).FindFlow
      [(1, zeroDelayFlow)]).2.2 zeroDelayFlow).1 rfl).1,
    (((C2_throughput_division_is_unguarded (sampleRun []).FindFlow
      [(1, zeroDelayFlow)]).2.2 zeroDelayFlow).1 rfl).2.2 (by decide)⟩⟩

/-! ## The wormhole block (C3) -/

/-- The nodes that carry a device created by the wormhole block. -/
theorem newWifiDevices_nodes (ex : List NetDevice) (c : NodeContainer) :
    (newWifiDevices ex c).map (fun d => d.node) = c := by
  induction c generalizing ex with
  | nil => rfl
  | cons n c ih => simp [newWifiDevices, ih]

/-- The devices and the malicious routing of the enabled scenario sit on the
nodes of `wormholeNodes`, in its order, and nowhere else. -/
theorem enabled_installs_on_wormholeNodes (p : String) (wn : NodeContainer)
    (h : wn.length ≤ 236) :
    ∃ s, mainSetup true p wn = some s ∧
      s.mal_devices.map (fun d => d.node) = wn ∧
      (s.net.internetStacks.filter (fun e => e.2 == malicious_aodv)).map (fun e => e.1) = wn := by
  refine ⟨_, mainSetup_true p wn h, newWifiDevices_nodes _ _, ?_⟩
  have h1 : ((plainAodvScenario p).net.internetStacks.filter
      (fun e => e.2 == malicious_aodv)) = [] := by
    simp only [plainAodvScenario]
    decide
  have h2 : (wn.map (fun n => (n, malicious_aodv))).filter (fun e => e.2 == malicious_aodv)
      = wn.map (fun n => (n, malicious_aodv)) := by
    rw [List.filter_eq_self]
    intro e he
    simp only [List.mem_map] at he
    obtain ⟨n, _, rfl⟩ := he
    simp
  simp only [enabledScenario, List.filter_append, h1, h2, List.nil_append, List.map_map]
  exact List.map_id _

/-- C3: with the wormhole enabled and `wormholeNodes` standing for the first
declared container (nodes 0 and 5), the malicious devices and the malicious
routing are installed on nodes 0 and 5 only, not on the eight endpoints
`0, 5, 2, 8, 7, 10, 11, 16` of the four declared pairs: the containers declared
in lines 95-97 reach no install call. -/
theorem C3_declared_pairs_not_installed :
    ∃ s, mainSetup true "DsssRate1Mbps" wormholeNodes1 = some s ∧
      s.mal_devices.map (fun d => d.node) = [0, 5] ∧
      (s.net.internetStacks.filter (fun e => e.2 == malicious_aodv)).map (fun e => e.1)
        = [0, 5] ∧
      wormholeEndpoints = [0, 5, 2, 8, 7, 10, 11, 16] ∧
      (∃ e ∈ wormholeEndpoints, e ∉ s.mal_devices.map (fun d => d.node)) ∧
      (∀ e ∈ [2, 8, 7, 10, 11, 16], ∀ st ∈ s.net.internetStacks, st.1 = e →
        st.2.attributes = []) := by
  refine ⟨_, mainSetup_true _ _ (by decide), by decide, by decide, by decide, by decide,
    by decide⟩

/-! ## The statistics file (C10) -/

/-- Whatever the run produces, the statistics file, when written, holds the
statistics of the freshly installed monitor, and the serialization step comes
before `Simulator::Run`. -/
theorem main_serializes_before_run (enableWormhole : Bool) (p : String) (wn : NodeContainer)
    (sim : FlowMonitorRun) (h : enableWormhole = true → wn.length ≤ 236) :
    ∃ out, main true enableWormhole p wn sim = some out ∧
      out.xmlFile = some [] ∧
      out.report = printFlowStats sim.FindFlow (sim.Run out.scenario) ∧
      out.steps.take 4 =
        [Step.InstallAll, Step.Stop (Seconds 100), Step.SerializeToXmlFile, Step.Run] := by
  have hs := mainSetup_some enableWormhole p wn h
  have hm : main true enableWormhole p wn sim
      = some
        { scenario := if enableWormhole then enabledScenario p wn else plainAodvScenario p,
          xmlFile := some [],
          report := printFlowStats sim.FindFlow
            (sim.Run (if enableWormhole then enabledScenario p wn else plainAodvScenario p)),
          steps :=
            [Step.InstallAll,
              Step.Stop (if enableWormhole then enabledScenario p wn
                else plainAodvScenario p).stopTime,
              Step.SerializeToXmlFile, Step.Run, Step.Destroy, Step.CheckForLostPackets,
              Step.GetFlowStats] ++
            (sim.Run (if enableWormhole then enabledScenario p wn
              else plainAodvScenario p)).map (fun i => Step.Print i.1) } := by
    simp only [main, hs]
    rfl
  refine ⟨_, hm, rfl, rfl, ?_⟩
  cases enableWormhole <;> rfl

/-- C10: with `EnableMonitor=true`, on a run in which the echo request is
delivered, the statistics file is serialized as the third monitor call, before
`Simulator::Run`, and holds no flow record, while the report printed after the
run has the record of flow 1. -/
theorem C10_xml_written_before_run :
    ∃ out, main true true "DsssRate1Mbps" wormholeNodes1 (sampleRun [(1, deliveredFlow)])
        = some out ∧
      out.steps =
        [Step.InstallAll, Step.Stop (Seconds 100), Step.SerializeToXmlFile, Step.Run,
         Step.Destroy, Step.CheckForLostPackets, Step.GetFlowStats, Step.Print 1] ∧
      out.xmlFile = some [] ∧
      out.report.map (fun r => (r.flowId, r.txBytes, r.rxBytes)) = [(1, 1052, 1052)] ∧
      out.xmlFile.map (fun x => x.map (fun i => i.1)) ≠ some (out.report.map (fun r => r.flowId)) := by
  have hs := mainSetup_true "DsssRate1Mbps" wormholeNodes1 (by decide)
  have hm : main true true "DsssRate1Mbps" wormholeNodes1 (sampleRun [(1, deliveredFlow)])
      = some
        { scenario := enabledScenario "DsssRate1Mbps" wormholeNodes1,
          xmlFile := some [],
          report := printFlowStats (sampleRun [(1, deliveredFlow)]).FindFlow [(1, deliveredFlow)],
          steps :=
            [Step.InstallAll, Step.Stop (Seconds 100), Step.SerializeToXmlFile, Step.Run,
             Step.Destroy, Step.CheckForLostPackets, Step.GetFlowStats, Step.Print 1] } := by
    simp only [main, hs]
    rfl
  refine ⟨_, hm, rfl, rfl, rfl, ?_⟩
  intro hc
  cases hc

end Wormhole
